import Mathlib

/-!
Verification of the MSAL.js token-acquisition spec against the repository
sources. Part one embeds the Express authorization-code sample
(src/unnamed/part_001): the in-memory access-token fast path of the /api
route, the /redirect handler branching on the state query parameter, and
the single application-global PkceCodes object. Part two models, from the
spec, the credential-cache and silent-flow engine whose implementation
lives in the library packages that are not part of the excerpt. Part three
embeds the JsonWebEncryption constructor of
src/lib/msal-browser/src/utils/JsonWebEncryption.ts.
-/

/-- PKCE verifier/challenge pair as stored in app.locals.pkceCodes
(part_001 lines 95-99): challengeMethod is the fixed string S256, verifier
and challenge start out as empty strings. -/
structure PkceCodes where
  verifier : String
  challenge : String
  challengeMethod : String
  deriving DecidableEq

/-- The mutable per-process state of the sample app: app.locals.pkceCodes
(a single object shared between routes) and app.locals.accessToken
(initialized to null, hence Option). -/
structure AppLocals where
  pkceCodes : PkceCodes
  accessToken : Option String
  deriving DecidableEq

/-- Initial app.locals: challengeMethod S256, empty verifier and
challenge, accessToken null (part_001 lines 95-103). -/
def initialLocals : AppLocals :=
  { pkceCodes := { verifier := "", challenge := "", challengeMethod := "S256" }
    accessToken := none }

/-- JavaScript truthiness of the stored access token: null (none) and the
empty string are falsy, every other string is truthy. -/
def jsTruthy : Option String → Bool
  | none => false
  | some s => !(s = "")

/-- What the /api route does (part_001 lines 166-177): either start a new
authorization-code flow or call the web API with a token. -/
inductive ApiAction where
  | startAuthFlow
  | callApi (token : String)
  deriving DecidableEq

/-- The /api route (part_001 lines 166-177): if app.locals.accessToken is
falsy, request an authorization code; otherwise call the web API with the
stored token. No other condition is tested. -/
def apiRoute (l : AppLocals) : ApiAction :=
  match l.accessToken with
  | none => ApiAction.startAuthFlow
  | some s => if s = "" then ApiAction.startAuthFlow else ApiAction.callApi s

/-- Effect of getAuthCode (part_001 lines 116-140) on app.locals: the
generated PKCE verifier and challenge overwrite the fields of the single
shared pkceCodes object. The challengeMethod field is left as is. -/
def applyGetAuthCode (l : AppLocals) (verifier challenge : String) : AppLocals :=
  { l with pkceCodes := { l.pkceCodes with verifier := verifier, challenge := challenge } }

/-- What the /redirect route does (part_001 lines 180-244), keyed on the
state query parameter: exchange the code for tokens (login or call_api
branch, each using the current global PKCE verifier), redirect to /login
(password_reset branch), or answer 500 "Unknown". -/
inductive RedirectAction where
  | exchangeLogin (code : Option String) (codeVerifier : String)
  | exchangeCallApi (code : Option String) (codeVerifier : String)
  | redirectToLogin
  | unknown500
  deriving DecidableEq

/-- The /redirect route (part_001 lines 180-244). The state query
parameter is compared against the three fixed APP_STATES constants; the
login and call_api branches call acquireTokenByCode with req.query.code
and the shared app.locals.pkceCodes.verifier. -/
def redirectRoute (l : AppLocals) (qstate qcode : Option String) : RedirectAction :=
  if qstate = some "login" then
    RedirectAction.exchangeLogin qcode l.pkceCodes.verifier
  else if qstate = some "call_api" then
    RedirectAction.exchangeCallApi qcode l.pkceCodes.verifier
  else if qstate = some "password_reset" then
    RedirectAction.redirectToLogin
  else
    RedirectAction.unknown500

/-- A token response as the call_api success handler sees it: the handler
stores response.accessToken (part_001 line 223); expiresOn is carried by
the response but never inspected by the sample. -/
structure SampleTokenResponse where
  accessToken : String
  expiresOn : Int
  deriving DecidableEq

/-- Effect of the call_api success handler (part_001 lines 220-229) on
app.locals: stores response.accessToken unconditionally; the pkceCodes
object is not touched, in particular the verifier is not cleared. -/
def applyRedirectCallApiSuccess (l : AppLocals) (resp : SampleTokenResponse) : AppLocals :=
  { l with accessToken := some resp.accessToken }

/-- The spec freshness rule of section 3: a token is still usable at time
now iff expiresOn lies strictly beyond now plus the skew; a token within
skew of expiry counts as expired. Stated from the spec for comparison with
the code. -/
def tokenFresh (expiresOn now skew : Int) : Bool :=
  now + skew < expiresOn

/-- C1 counterexample: reach a state in which an access token that is
already past expiry (expiresOn 0, now 1000, skew 300, so not fresh under
the section-3 rule) sits in app.locals, and observe that the /api
fast path serves it rather than treating it as a cache miss. -/
theorem c1_fast_path_serves_expired_token :
    apiRoute (applyRedirectCallApiSuccess initialLocals
      { accessToken := "expiredAT", expiresOn := 0 }) = ApiAction.callApi "expiredAT"
    ∧ tokenFresh 0 1000 300 = false := by
  constructor
  · rfl
  · rfl

/-- C1 amended: the /api fast path consults neither expiresOn nor any
clock; it serves whatever non-null, non-empty token is stored, and only a
null or empty store is a cache miss. -/
theorem c1_fast_path_ignores_expiry (l : AppLocals) (s : String)
    (hstore : l.accessToken = some s) (hne : s ≠ "") :
    apiRoute l = ApiAction.callApi s := by
  simp [apiRoute, hstore, hne]

/-- C1 amended, witness at a concrete state. -/
theorem c1_fast_path_ignores_expiry_witness :
    (applyRedirectCallApiSuccess initialLocals
      { accessToken := "expiredAT", expiresOn := 0 }).accessToken = some "expiredAT"
    ∧ ("expiredAT" : String) ≠ ""
    ∧ apiRoute (applyRedirectCallApiSuccess initialLocals
      { accessToken := "expiredAT", expiresOn := 0 }) = ApiAction.callApi "expiredAT" :=
  ⟨by rfl, by decide,
    c1_fast_path_ignores_expiry _ "expiredAT" (by rfl) (by decide)⟩

/-- C2 counterexample: in the initial state no authorization request is
pending (no getAuthCode has run, the PKCE verifier is empty), yet a forged
redirect carrying state call_api proceeds straight to the code exchange
with the attacker-chosen code - the handler matches state against fixed
constants, not against pending request records, and raises no
StateMismatchError. -/
theorem c2_forged_state_reaches_code_exchange :
    redirectRoute initialLocals (some "call_api") (some "evilcode")
      = RedirectAction.exchangeCallApi (some "evilcode") ""
    ∧ redirectRoute initialLocals (some "call_api") (some "evilcode")
      ≠ RedirectAction.unknown500 := by
  constructor
  · rfl
  · decide

/-- C2 amended: the /redirect handler compares state only with the three
fixed APP_STATES strings; any state that matches none of them (including a
missing state) is answered with the generic 500 "Unknown" response and
never reaches a code exchange, while a state equal to login or call_api
proceeds to the exchange whether or not any request is pending. -/
theorem c2_unmatched_state_is_unknown500 (l : AppLocals) (qstate qcode : Option String)
    (hlogin : qstate ≠ some "login") (hapi : qstate ≠ some "call_api")
    (hreset : qstate ≠ some "password_reset") :
    redirectRoute l qstate qcode = RedirectAction.unknown500 := by
  simp [redirectRoute, hlogin, hapi, hreset]

/-- C2 amended, witness: a redirect with no state parameter at all. -/
theorem c2_unmatched_state_is_unknown500_witness :
    (none : Option String) ≠ some "login"
    ∧ (none : Option String) ≠ some "call_api"
    ∧ (none : Option String) ≠ some "password_reset"
    ∧ redirectRoute initialLocals none (some "c") = RedirectAction.unknown500 :=
  ⟨by decide, by decide, by decide,
    c2_unmatched_state_is_unknown500 initialLocals none (some "c")
      (by decide) (by decide) (by decide)⟩

/-- C3 counterexample: start two authorization requests (verifiers v1 then
v2); because app.locals.pkceCodes is a single shared object, the second
generation overwrites the first, both outstanding redirects redeem with
the same verifier v2, and after the call_api exchange completes the
verifier is still in place rather than discarded. -/
theorem c3_shared_pkce_slot_reuses_verifier :
    redirectRoute (applyGetAuthCode (applyGetAuthCode initialLocals "v1" "c1") "v2" "c2")
      (some "login") (some "codeA")
      = RedirectAction.exchangeLogin (some "codeA") "v2"
    ∧ redirectRoute (applyGetAuthCode (applyGetAuthCode initialLocals "v1" "c1") "v2" "c2")
      (some "call_api") (some "codeB")
      = RedirectAction.exchangeCallApi (some "codeB") "v2"
    ∧ (applyRedirectCallApiSuccess
        (applyGetAuthCode (applyGetAuthCode initialLocals "v1" "c1") "v2" "c2")
        { accessToken := "at", expiresOn := 3600 }).pkceCodes.verifier = "v2" := by
  refine ⟨rfl, rfl, rfl⟩

/-- C3 amended: the sample keeps one global PkceCodes object for all
requests: starting a second request overwrites the verifier of the first,
so every outstanding redirect redeems with the most recently generated
verifier, and completing a call_api code exchange leaves the verifier in
place instead of discarding it. -/
theorem c3_pkce_overwrite_and_retention (l : AppLocals) (v1 c1 v2 c2 : String)
    (resp : SampleTokenResponse) :
    (applyGetAuthCode (applyGetAuthCode l v1 c1) v2 c2).pkceCodes.verifier = v2
    ∧ (applyRedirectCallApiSuccess (applyGetAuthCode (applyGetAuthCode l v1 c1) v2 c2)
        resp).pkceCodes.verifier = v2 := by
  exact ⟨rfl, rfl⟩

/-- Modelled from the spec: AccessTokenCredential of section 3. The
implementation lives in the msal-common cache package, which is not part
of the source excerpt; fields follow the spec list (target is the scope
set, cachedAt and expiresOn are epoch seconds). -/
structure AccessTokenCredential where
  homeAccountId : String
  environment : String
  clientId : String
  realm : String
  target : List String
  secret : String
  cachedAt : Int
  expiresOn : Int
  deriving DecidableEq

/-- Modelled from the spec: RefreshTokenCredential of section 3 (no
client-side expiry; familyId omitted as unused by the claims). -/
structure RefreshTokenCredential where
  homeAccountId : String
  environment : String
  clientId : String
  secret : String
  deriving DecidableEq

/-- Modelled from the spec: Account entity of section 3 (the fields the
cache matching rules use). -/
structure Account where
  homeAccountId : String
  environment : String
  username : String
  deriving DecidableEq

/-- Modelled from the spec: IdTokenCredential of section 3. -/
structure IdTokenCredential where
  homeAccountId : String
  environment : String
  clientId : String
  realm : String
  secret : String
  deriving DecidableEq

/-- Modelled from the spec: the CredentialCache store of section 4.5,
holding account and credential entities. -/
structure Cache where
  accounts : List Account
  idTokens : List IdTokenCredential
  accessTokens : List AccessTokenCredential
  refreshTokens : List RefreshTokenCredential
  deriving DecidableEq

/-- Requested scope set is contained in the target scope set of a
candidate (scope-subset matching of section 4.5). -/
def scopesSubset (requested target : List String) : Bool :=
  requested.all (fun s => target.contains s)

/-- Modelled from the spec: the getAccessToken matching rule of section
4.5 - identical account key, identical clientId and realm, target a
superset of the requested scopes, and not expired under the section-3
skew rule. -/
def accessTokenMatches (acct : Account) (clientId : String) (scopes : List String)
    (realm : String) (now skew : Int) (c : AccessTokenCredential) : Bool :=
  c.homeAccountId = acct.homeAccountId && c.environment = acct.environment
    && c.clientId = clientId && c.realm = realm
    && scopesSubset scopes c.target && tokenFresh c.expiresOn now skew

/-- Among matching candidates the one with the latest cachedAt wins
(section 4.5); on an empty list this is a cache miss. -/
def pickLatest : List AccessTokenCredential → Option AccessTokenCredential
  | [] => none
  | c :: rest =>
    match pickLatest rest with
    | none => some c
    | some b => if c.cachedAt < b.cachedAt then some b else some c

/-- Modelled from the spec: CredentialCache.getAccessToken of section 4.5.
Filters candidates by the matching rule and returns the latest, or a cache
miss (none) when nothing matches. -/
def getAccessToken (cache : Cache) (acct : Account) (clientId : String)
    (scopes : List String) (realm : String) (now skew : Int) :
    Option AccessTokenCredential :=
  pickLatest (cache.accessTokens.filter (accessTokenMatches acct clientId scopes realm now skew))

/-- Key match for refresh tokens: homeAccountId, environment and clientId
all identical. -/
def refreshTokenMatches (acct : Account) (clientId : String)
    (r : RefreshTokenCredential) : Bool :=
  r.homeAccountId = acct.homeAccountId && r.environment = acct.environment
    && r.clientId = clientId

/-- Modelled from the spec: CredentialCache.getRefreshToken of section
4.5. -/
def getRefreshToken (cache : Cache) (acct : Account) (clientId : String) :
    Option RefreshTokenCredential :=
  cache.refreshTokens.find? (refreshTokenMatches acct clientId)

/-- Modelled from the spec: removal of the refresh token for an account
and client, used when redemption reports the token invalid (section
4.6). -/
def removeRefreshToken (cache : Cache) (acct : Account) (clientId : String) : Cache :=
  { cache with refreshTokens :=
      cache.refreshTokens.filter (fun r => !(refreshTokenMatches acct clientId r)) }

/-- Modelled from the spec: last-writer-wins write of an access token
credential keyed by (homeAccountId, environment, clientId, realm, target)
per sections 3 and 4.5 - the old entry for the key is replaced, never
duplicated. -/
def sameAccessTokenKey (a b : AccessTokenCredential) : Bool :=
  a.homeAccountId = b.homeAccountId && a.environment = b.environment
    && a.clientId = b.clientId && a.realm = b.realm && a.target = b.target

/-- Modelled from the spec: CredentialCache.setCredential for access
tokens (section 4.5, last-writer-wins). -/
def writeAccessToken (cache : Cache) (c : AccessTokenCredential) : Cache :=
  { cache with accessTokens :=
      c :: cache.accessTokens.filter (fun a => !(sameAccessTokenKey c a)) }

/-- Modelled from the spec: rotation of the refresh token on redemption
(section 4.6 and the design note of section 9): the prior token for the
key is discarded and the new secret stored. -/
def rotateRefreshToken (cache : Cache) (acct : Account) (clientId : String)
    (secret : String) : Cache :=
  let removed := removeRefreshToken cache acct clientId
  { removed with refreshTokens :=
      { homeAccountId := acct.homeAccountId, environment := acct.environment
        clientId := clientId, secret := secret } :: removed.refreshTokens }

/-- The error kinds of section 7 that the modelled flows can surface. -/
inductive AuthError where
  | invalidSignature
  | tokenExpired
  | issuerMismatch
  | audienceMismatch
  | nonceMismatch
  | noCredentials
  | interactionRequired
  | transientServer
  deriving DecidableEq

/-- Parsed ID-token payload: the claims section 4.4 checks. -/
structure IdTokenPayload where
  iss : String
  aud : List String
  expClaim : Int
  nonce : Option String
  deriving DecidableEq

/-- Expectations handed to the validator (section 4.4): issuer, audience,
and the nonce generated during buildAuthorizationUrl when one exists. -/
structure ExpectedIdToken where
  issuer : String
  audience : String
  nonce : Option String
  deriving DecidableEq

/-- Modelled from the spec: TokenValidator.validateIdToken of section 4.4.
Signature verification is delegated to CryptoCapability, so its verdict
enters as the boolean sigValid; the claim checks run in the stated order
and claims are returned only when every check passes. -/
def validateIdToken (sigValid : Bool) (tok : IdTokenPayload)
    (expected : ExpectedIdToken) (now skew : Int) : Except AuthError IdTokenPayload :=
  if !sigValid then .error AuthError.invalidSignature
  else if tok.expClaim < now - skew then .error AuthError.tokenExpired
  else if !(tok.iss = expected.issuer) then .error AuthError.issuerMismatch
  else if !(tok.aud.contains expected.audience) then .error AuthError.audienceMismatch
  else
    match expected.nonce with
    | some n => if tok.nonce = some n then .ok tok else .error AuthError.nonceMismatch
    | none => .ok tok

/-- Modelled from the spec: the pending-request correlation record of
section 4.3, stored keyed by state at buildAuthorizationUrl time. -/
structure PendingRecord where
  state : String
  nonce : String
  clientId : String
  realm : String
  homeAccountId : String
  environment : String
  username : String
  deriving DecidableEq

/-- Modelled from the spec: the token-endpoint response parsed by
exchangeCodeForTokens (section 4.3); sigValid carries the verdict of the
delegated signature check on the ID token. -/
structure TokenEndpointResponse where
  accessToken : String
  idToken : IdTokenPayload
  rawIdToken : String
  refreshToken : Option String
  expiresOn : Int
  scope : List String
  sigValid : Bool
  deriving DecidableEq

/-- Modelled from the spec: last-writer-wins write of the account entity
keyed by homeAccountId and environment (section 3 invariant). -/
def writeAccount (cache : Cache) (a : Account) : Cache :=
  { cache with accounts :=
      a :: cache.accounts.filter (fun b =>
        !(b.homeAccountId = a.homeAccountId && b.environment = a.environment)) }

/-- Modelled from the spec: last-writer-wins write of an ID-token
credential, one per (account, clientId, realm) per section 3. -/
def writeIdToken (cache : Cache) (c : IdTokenCredential) : Cache :=
  { cache with idTokens :=
      c :: cache.idTokens.filter (fun b =>
        !(b.homeAccountId = c.homeAccountId && b.environment = c.environment
          && b.clientId = c.clientId && b.realm = c.realm)) }

/-- Modelled from the spec: the cache commit of a fully validated token
response (section 4.3): Account, IdTokenCredential, AccessTokenCredential
and, when present, RefreshTokenCredential are written. -/
def commitTokenResponse (cache : Cache) (pending : PendingRecord)
    (resp : TokenEndpointResponse) (now : Int) : Cache :=
  let acct : Account :=
    { homeAccountId := pending.homeAccountId, environment := pending.environment
      username := pending.username }
  let c1 := writeAccount cache acct
  let c2 := writeIdToken c1
    { homeAccountId := pending.homeAccountId, environment := pending.environment
      clientId := pending.clientId, realm := pending.realm, secret := resp.rawIdToken }
  let c3 := writeAccessToken c2
    { homeAccountId := pending.homeAccountId, environment := pending.environment
      clientId := pending.clientId, realm := pending.realm, target := resp.scope
      secret := resp.accessToken, cachedAt := now, expiresOn := resp.expiresOn }
  match resp.refreshToken with
  | some rt => rotateRefreshToken c3 acct pending.clientId rt
  | none => c3

/-- Modelled from the spec: AuthCodeFlowEngine.exchangeCodeForTokens of
section 4.3 - the ID token is validated (nonce against the one generated
in buildAuthorizationUrl); only after full validation are the entities
committed to the cache, otherwise the error is surfaced and the cache is
returned untouched. -/
def exchangeCodeForTokens (cache : Cache) (pending : PendingRecord)
    (expectedIssuer : String) (resp : TokenEndpointResponse) (now skew : Int) :
    Except AuthError String × Cache :=
  match validateIdToken resp.sigValid resp.idToken
      { issuer := expectedIssuer, audience := pending.clientId
        nonce := some pending.nonce } now skew with
  | .error e => (.error e, cache)
  | .ok _ => (.ok resp.accessToken, commitTokenResponse cache pending resp now)

/-- Modelled from the spec: the outcome of a refresh-token redemption
attempt at the token endpoint (section 4.6): success, a provider error
code, or a transient network/server failure. -/
inductive ProviderOutcome where
  | success (resp : TokenEndpointResponse)
  | providerError (code : String)
  | networkFailure
  deriving DecidableEq

/-- Modelled from the spec: the provider error codes that indicate the
refresh token itself is invalid, expired or revoked (section 4.6). -/
def refreshTokenInvalidCodes : List String :=
  ["invalid_grant", "expired_token", "token_revoked"]

/-- Result of a silent acquisition: the outcome, the cache afterwards,
and how many token-endpoint network calls were issued. -/
structure SilentResult where
  outcome : Except AuthError String
  cache : Cache
  networkCalls : Nat

/-- Modelled from the spec: SilentFlowEngine.acquireTokenSilent of section
4.6. Cache hit returns immediately with zero network calls; on a miss the
refresh token is redeemed (one network call, outcome supplied by the
transport collaborator): an invalid-grant style provider error removes the
refresh token and fails with InteractionRequiredError, a transient failure
fails with TransientServerError leaving the cache untouched, and a
validated success commits the new credentials. -/
def acquireTokenSilent (cache : Cache) (acct : Account) (clientId : String)
    (scopes : List String) (realm : String) (now skew : Int)
    (expectedIssuer : String) (provider : ProviderOutcome) : SilentResult :=
  match getAccessToken cache acct clientId scopes realm now skew with
  | some c => { outcome := .ok c.secret, cache := cache, networkCalls := 0 }
  | none =>
    match getRefreshToken cache acct clientId with
    | none => { outcome := .error AuthError.noCredentials, cache := cache, networkCalls := 0 }
    | some _ =>
      match provider with
      | .providerError code =>
        if refreshTokenInvalidCodes.contains code then
          { outcome := .error AuthError.interactionRequired
            cache := removeRefreshToken cache acct clientId, networkCalls := 1 }
        else
          { outcome := .error AuthError.transientServer, cache := cache, networkCalls := 1 }
      | .networkFailure =>
        { outcome := .error AuthError.transientServer, cache := cache, networkCalls := 1 }
      | .success resp =>
        let pending : PendingRecord :=
          { state := "", nonce := "", clientId := clientId, realm := realm
            homeAccountId := acct.homeAccountId, environment := acct.environment
            username := acct.username }
        match validateIdToken resp.sigValid resp.idToken
            { issuer := expectedIssuer, audience := clientId, nonce := none } now skew with
        | .error e => { outcome := .error e, cache := cache, networkCalls := 1 }
        | .ok _ =>
          { outcome := .ok resp.accessToken
            cache := commitTokenResponse cache pending resp now, networkCalls := 1 }

/-- A predicate never finds an element in a list filtered to its
complement: looking up a key right after removing it yields a miss. -/
theorem find?_of_filter_not {α : Type} (p : α → Bool) (l : List α) :
    (l.filter (fun a => !(p a))).find? p = none := by
  induction l with
  | nil => rfl
  | cons a t ih =>
    by_cases h : p a
    · simp [List.filter_cons, h, ih]
    · simp [List.filter_cons, h, List.find?, ih]

/-- C4: when the ID token carries a nonce different from the one recorded
in the pending request (all earlier validation stages passing), the code
exchange fails with NonceMismatchError and the credential cache is
returned exactly as it was - no Account, IdToken, AccessToken or
RefreshToken entity is written. -/
theorem c4_nonce_mismatch_leaves_cache_unchanged (cache : Cache)
    (pending : PendingRecord) (expectedIssuer : String)
    (resp : TokenEndpointResponse) (now skew : Int)
    (hsig : resp.sigValid = true)
    (hexp : now - skew ≤ resp.idToken.expClaim)
    (hiss : resp.idToken.iss = expectedIssuer)
    (haud : pending.clientId ∈ resp.idToken.aud)
    (hnonce : resp.idToken.nonce ≠ some pending.nonce) :
    exchangeCodeForTokens cache pending expectedIssuer resp now skew
      = (.error AuthError.nonceMismatch, cache) := by
  simp [exchangeCodeForTokens, validateIdToken, hsig, hiss, haud, hnonce,
    Int.not_lt.mpr hexp]

/-- Example entities used to instantiate the modelled engine. -/
def exAccount : Account :=
  { homeAccountId := "uid.tid", environment := "login.example.net", username := "user" }

/-- Example pending record expecting nonce n1. -/
def exPending : PendingRecord :=
  { state := "st1", nonce := "n1", clientId := "C1", realm := "T1"
    homeAccountId := "uid.tid", environment := "login.example.net", username := "user" }

/-- Example token-endpoint response whose ID token claims nonce n2. -/
def exBadNonceResp : TokenEndpointResponse :=
  { accessToken := "AT-new", idToken := { iss := "iss1", aud := ["C1"], expClaim := 9999, nonce := some "n2" }
    rawIdToken := "rawid", refreshToken := some "RT-new", expiresOn := 9999
    scope := ["read"], sigValid := true }

/-- Example empty cache. -/
def exEmptyCache : Cache :=
  { accounts := [], idTokens := [], accessTokens := [], refreshTokens := [] }

/-- C4 witness: the n1 versus n2 scenario of the spec on the empty cache. -/
theorem c4_nonce_mismatch_leaves_cache_unchanged_witness :
    exBadNonceResp.sigValid = true
    ∧ (0 : Int) - 300 ≤ exBadNonceResp.idToken.expClaim
    ∧ exBadNonceResp.idToken.iss = "iss1"
    ∧ exPending.clientId ∈ exBadNonceResp.idToken.aud
    ∧ exBadNonceResp.idToken.nonce ≠ some exPending.nonce
    ∧ exchangeCodeForTokens exEmptyCache exPending "iss1" exBadNonceResp 0 300
      = (.error AuthError.nonceMismatch, exEmptyCache) :=
  ⟨by decide, by decide, by decide, by decide, by decide,
    c4_nonce_mismatch_leaves_cache_unchanged exEmptyCache exPending "iss1"
      exBadNonceResp 0 300 (by decide) (by decide) (by decide) (by decide) (by decide)⟩

/-- C5: for a candidate belonging to the requested account, the
getAccessToken matching rule holds exactly when the candidate has
identical clientId and realm, its target scope set is a superset of the
requested scope set, and it is not expired under the skew rule. -/
theorem c5_matching_rule (acct : Account) (clientId : String) (scopes : List String)
    (realm : String) (now skew : Int) (c : AccessTokenCredential)
    (hacc : c.homeAccountId = acct.homeAccountId)
    (henv : c.environment = acct.environment) :
    accessTokenMatches acct clientId scopes realm now skew c = true ↔
      (c.clientId = clientId ∧ c.realm = realm
        ∧ (∀ s ∈ scopes, s ∈ c.target) ∧ now + skew < c.expiresOn) := by
  simp [accessTokenMatches, scopesSubset, tokenFresh, hacc, henv, and_assoc]

/-- Example cached access token: clientId C1, realm T1, target read,
expiring 3600 seconds after the example call time 1000. -/
def exAccessToken : AccessTokenCredential :=
  { homeAccountId := "uid.tid", environment := "login.example.net"
    clientId := "C1", realm := "T1", target := ["read"], secret := "AT1"
    cachedAt := 900, expiresOn := 4600 }

/-- Example cache holding the one access token and one refresh token. -/
def exCache : Cache :=
  { accounts := [exAccount], idTokens := [], accessTokens := [exAccessToken]
    refreshTokens := [{ homeAccountId := "uid.tid", environment := "login.example.net"
                        clientId := "C1", secret := "RT1" }] }

/-- C5 witness: the spec scenario - a request for the read scope is a
hit, a request for read and write is a miss, and the matching rule
instance at the read request. -/
theorem c5_matching_rule_witness :
    exAccessToken.homeAccountId = exAccount.homeAccountId
    ∧ exAccessToken.environment = exAccount.environment
    ∧ getAccessToken exCache exAccount "C1" ["read"] "T1" 1000 300 = some exAccessToken
    ∧ getAccessToken exCache exAccount "C1" ["read", "write"] "T1" 1000 300 = none
    ∧ (accessTokenMatches exAccount "C1" ["read"] "T1" 1000 300 exAccessToken = true ↔
        (exAccessToken.clientId = "C1" ∧ exAccessToken.realm = "T1"
          ∧ (∀ s ∈ ["read"], s ∈ exAccessToken.target)
          ∧ (1000 : Int) + 300 < exAccessToken.expiresOn)) :=
  ⟨by decide, by decide, by decide, by decide,
    c5_matching_rule exAccount "C1" ["read"] "T1" 1000 300 exAccessToken
      (by decide) (by decide)⟩

/-- C6: on a cache miss with a refresh token present, a provider error
invalid_grant removes the refresh token from the cache and fails with
InteractionRequiredError - the subsequent getRefreshToken for the same
account is a cache miss - while a transient network failure fails with
TransientServerError and leaves the cache, refresh token included,
untouched. -/
theorem c6_refresh_redemption_error_handling (cache : Cache) (acct : Account)
    (clientId : String) (scopes : List String) (realm : String) (now skew : Int)
    (issuer : String) (rt : RefreshTokenCredential)
    (hmiss : getAccessToken cache acct clientId scopes realm now skew = none)
    (hrt : getRefreshToken cache acct clientId = some rt) :
    (acquireTokenSilent cache acct clientId scopes realm now skew issuer
        (ProviderOutcome.providerError "invalid_grant")).outcome
      = .error AuthError.interactionRequired
    ∧ getRefreshToken (acquireTokenSilent cache acct clientId scopes realm now skew issuer
        (ProviderOutcome.providerError "invalid_grant")).cache acct clientId = none
    ∧ (acquireTokenSilent cache acct clientId scopes realm now skew issuer
        ProviderOutcome.networkFailure).outcome = .error AuthError.transientServer
    ∧ (acquireTokenSilent cache acct clientId scopes realm now skew issuer
        ProviderOutcome.networkFailure).cache = cache := by
  refine ⟨?_, ?_, ?_, ?_⟩
  · simp [acquireTokenSilent, hmiss, hrt, refreshTokenInvalidCodes]
  · simp only [acquireTokenSilent, hmiss, hrt]
    simp [refreshTokenInvalidCodes, getRefreshToken, removeRefreshToken,
      find?_of_filter_not]
  · simp [acquireTokenSilent, hmiss, hrt]
  · simp [acquireTokenSilent, hmiss, hrt]

/-- Example cache that misses on the write scope but holds a refresh
token for the example account. -/
def exMissCache : Cache :=
  { accounts := [exAccount], idTokens := [], accessTokens := []
    refreshTokens := [{ homeAccountId := "uid.tid", environment := "login.example.net"
                        clientId := "C1", secret := "RT1" }] }

/-- C6 witness at the example miss cache. -/
theorem c6_refresh_redemption_error_handling_witness :
    getAccessToken exMissCache exAccount "C1" ["read"] "T1" 1000 300 = none
    ∧ getRefreshToken exMissCache exAccount "C1"
      = some { homeAccountId := "uid.tid", environment := "login.example.net"
               clientId := "C1", secret := "RT1" }
    ∧ (acquireTokenSilent exMissCache exAccount "C1" ["read"] "T1" 1000 300 "iss1"
        (ProviderOutcome.providerError "invalid_grant")).outcome
      = .error AuthError.interactionRequired
    ∧ getRefreshToken (acquireTokenSilent exMissCache exAccount "C1" ["read"] "T1" 1000 300
        "iss1" (ProviderOutcome.providerError "invalid_grant")).cache exAccount "C1" = none
    ∧ (acquireTokenSilent exMissCache exAccount "C1" ["read"] "T1" 1000 300 "iss1"
        ProviderOutcome.networkFailure).outcome = .error AuthError.transientServer
    ∧ (acquireTokenSilent exMissCache exAccount "C1" ["read"] "T1" 1000 300 "iss1"
        ProviderOutcome.networkFailure).cache = exMissCache := by
  refine ⟨by decide, by decide, ?_⟩
  have h := c6_refresh_redemption_error_handling exMissCache exAccount "C1" ["read"] "T1"
    1000 300 "iss1"
    { homeAccountId := "uid.tid", environment := "login.example.net"
      clientId := "C1", secret := "RT1" }
    (by decide) (by decide)
  exact ⟨h.1, h.2.1, h.2.2.1, h.2.2.2⟩

/-- C7: with a fresh matching access token cached, acquireTokenSilent is a
pure cache hit - it returns the cached secret with zero network calls and
leaves the cache unchanged, so an immediately repeated call yields the
identical result and again issues zero network calls. -/
theorem c7_silent_hit_idempotent (cache : Cache) (acct : Account) (clientId : String)
    (scopes : List String) (realm : String) (now skew : Int) (issuer : String)
    (provider : ProviderOutcome) (c : AccessTokenCredential)
    (hhit : getAccessToken cache acct clientId scopes realm now skew = some c) :
    (acquireTokenSilent cache acct clientId scopes realm now skew issuer provider).outcome
      = .ok c.secret
    ∧ (acquireTokenSilent
        (acquireTokenSilent cache acct clientId scopes realm now skew issuer provider).cache
        acct clientId scopes realm now skew issuer provider).outcome
      = (acquireTokenSilent cache acct clientId scopes realm now skew issuer
          provider).outcome
    ∧ (acquireTokenSilent cache acct clientId scopes realm now skew issuer
        provider).networkCalls = 0
    ∧ (acquireTokenSilent
        (acquireTokenSilent cache acct clientId scopes realm now skew issuer provider).cache
        acct clientId scopes realm now skew issuer provider).networkCalls = 0 := by
  simp [acquireTokenSilent, hhit]

/-- C7 witness: two successive silent calls against the example cache with
its fresh read-scope token. -/
theorem c7_silent_hit_idempotent_witness :
    getAccessToken exCache exAccount "C1" ["read"] "T1" 1000 300 = some exAccessToken
    ∧ ((acquireTokenSilent exCache exAccount "C1" ["read"] "T1" 1000 300 "iss1"
        ProviderOutcome.networkFailure).outcome = .ok exAccessToken.secret
      ∧ (acquireTokenSilent
          (acquireTokenSilent exCache exAccount "C1" ["read"] "T1" 1000 300 "iss1"
            ProviderOutcome.networkFailure).cache
          exAccount "C1" ["read"] "T1" 1000 300 "iss1"
          ProviderOutcome.networkFailure).outcome
        = (acquireTokenSilent exCache exAccount "C1" ["read"] "T1" 1000 300 "iss1"
            ProviderOutcome.networkFailure).outcome
      ∧ (acquireTokenSilent exCache exAccount "C1" ["read"] "T1" 1000 300 "iss1"
          ProviderOutcome.networkFailure).networkCalls = 0
      ∧ (acquireTokenSilent
          (acquireTokenSilent exCache exAccount "C1" ["read"] "T1" 1000 300 "iss1"
            ProviderOutcome.networkFailure).cache
          exAccount "C1" ["read"] "T1" 1000 300 "iss1"
          ProviderOutcome.networkFailure).networkCalls = 0) :=
  ⟨by decide,
    c7_silent_hit_idempotent exCache exAccount "C1" ["read"] "T1" 1000 300 "iss1"
      ProviderOutcome.networkFailure exAccessToken (by decide)⟩

/-- The 64-character base64url alphabet (RFC 4648 section 5). -/
def base64UrlAlphabet : List Char :=
  "ABCDEFGHIJKLMNOPQRSTUVWXYZabcdefghijklmnopqrstuvwxyz0123456789-_".data

/-- Character for a base64url sextet; a valid sextet index is below 64,
and the index is reduced mod 64 to make totality explicit. -/
def b64Char (i : Nat) : Char :=
  base64UrlAlphabet.getD (i % 64) 'A'

/-- Unpadded base64url character stream of a byte list: groups of three
bytes become four sextet characters, a trailing group of one or two bytes
becomes two or three characters and no padding is emitted. -/
def base64UrlChunks : List Nat → List Char
  | [] => []
  | [b0] => [b64Char (b0 / 4), b64Char (b0 % 4 * 16)]
  | [b0, b1] => [b64Char (b0 / 4), b64Char (b0 % 4 * 16 + b1 / 16), b64Char (b1 % 16 * 4)]
  | b0 :: b1 :: b2 :: rest =>
    b64Char (b0 / 4) :: b64Char (b0 % 4 * 16 + b1 / 16)
      :: b64Char (b1 % 16 * 4 + b2 / 64) :: b64Char (b2 % 64) :: base64UrlChunks rest

/-- Unpadded base64url encoding of a byte list as a string. -/
def base64UrlEncode (bytes : List Nat) : String :=
  String.mk (base64UrlChunks bytes)

/-- The unreserved characters of RFC 3986 section 2.3: letters, digits,
hyphen, period, underscore, tilde. -/
def unreservedChar (c : Char) : Bool :=
  ('A' ≤ c && c ≤ 'Z') || ('a' ≤ c && c ≤ 'z') || ('0' ≤ c && c ≤ '9')
    || c = '-' || c = '.' || c = '_' || c = '~'

/-- Modelled from the spec: PkceGenerator.generate of section 4.1. The
generator is implemented by the msal-node CryptoProvider, which is not
part of the source excerpt; per sections 2 and 6 the random-byte source
and the SHA-256 hash are CryptoCapability collaborators and therefore
enter as parameters. The generator requests 32 random bytes, encodes them
as the verifier, and sets challenge to the unpadded base64url encoding of
the SHA-256 hash of the verifier with challengeMethod S256 (the value
also fixed at part_001 line 96). -/
def generatePkceCodes (randomSource : Nat → List Nat)
    (sha256 : String → List Nat) : PkceCodes :=
  let verifier := base64UrlEncode (randomSource 32)
  { verifier := verifier
    challenge := base64UrlEncode (sha256 verifier)
    challengeMethod := "S256" }

/-- Every character the sextet table can produce is unreserved. -/
theorem b64Char_unreserved (i : Nat) : unreservedChar (b64Char i) = true := by
  have hlt : i % 64 < 64 := Nat.mod_lt _ (by decide)
  have hall : ∀ j, j < 64 → unreservedChar (base64UrlAlphabet.getD j 'A') = true := by decide
  exact hall (i % 64) hlt

/-- Length of the unpadded encoding of a byte list whose length is 2 mod
3: three groups of four characters plus a final three. -/
theorem base64UrlChunks_length_mod2 (n : Nat) :
    ∀ l : List Nat, l.length = 3 * n + 2 → (base64UrlChunks l).length = 4 * n + 3 := by
  induction n with
  | zero =>
    intro l hl
    match l, hl with
    | [b0, b1], _ => rfl
  | succ n ih =>
    intro l hl
    match l, hl with
    | b0 :: b1 :: b2 :: rest, hl =>
      have hrest : rest.length = 3 * n + 2 := by
        simp [List.length_cons] at hl
        omega
      simp [base64UrlChunks, ih rest hrest]
      omega

/-- Every character emitted by the encoder is unreserved. -/
theorem base64UrlChunks_unreserved (l : List Nat) :
    ∀ c ∈ base64UrlChunks l, unreservedChar c = true := by
  induction l using base64UrlChunks.induct with
  | case1 =>
    intro c hc
    simp [base64UrlChunks] at hc
  | case2 b0 =>
    intro c hc
    simp [base64UrlChunks] at hc
    rcases hc with h | h <;> subst h <;> exact b64Char_unreserved _
  | case3 b0 b1 =>
    intro c hc
    simp [base64UrlChunks] at hc
    rcases hc with h | h | h <;> subst h <;> exact b64Char_unreserved _
  | case4 b0 b1 b2 rest ih =>
    intro c hc
    simp [base64UrlChunks] at hc
    rcases hc with h | h | h | h | h
    · subst h; exact b64Char_unreserved _
    · subst h; exact b64Char_unreserved _
    · subst h; exact b64Char_unreserved _
    · subst h; exact b64Char_unreserved _
    · exact ih c h

/-- C8: for any random source honouring the 32-byte request and any
SHA-256 collaborator, the generated PkceCodes value has challengeMethod
S256, a 43-character verifier (within the 43-128 bound) made only of
unreserved characters, and a challenge equal to the unpadded base64url
encoding of the SHA-256 hash of the verifier. -/
theorem c8_pkce_generation (randomSource : Nat → List Nat)
    (sha256 : String → List Nat)
    (hrand : (randomSource 32).length = 32) :
    (generatePkceCodes randomSource sha256).challengeMethod = "S256"
    ∧ (generatePkceCodes randomSource sha256).verifier.length = 43
    ∧ 43 ≤ (generatePkceCodes randomSource sha256).verifier.length
    ∧ (generatePkceCodes randomSource sha256).verifier.length ≤ 128
    ∧ (∀ c ∈ (generatePkceCodes randomSource sha256).verifier.data,
        unreservedChar c = true)
    ∧ (generatePkceCodes randomSource sha256).challenge
      = base64UrlEncode (sha256 (generatePkceCodes randomSource sha256).verifier) := by
  have hlen : (base64UrlChunks (randomSource 32)).length = 43 := by
    have h32 : (randomSource 32).length = 3 * 10 + 2 := by omega
    simpa using base64UrlChunks_length_mod2 10 (randomSource 32) h32
  refine ⟨rfl, ?_, ?_, ?_, ?_, rfl⟩
  · simpa [generatePkceCodes, base64UrlEncode, String.length] using hlen
  · simp [generatePkceCodes, base64UrlEncode, String.length, hlen]
  · simp [generatePkceCodes, base64UrlEncode, String.length, hlen]
  · intro c hc
    exact base64UrlChunks_unreserved (randomSource 32) c hc

/-- C8 witness: a concrete random source and a concrete stand-in hash
function of the right output length. -/
theorem c8_pkce_generation_witness :
    ((fun n => List.replicate n 0) 32 : List Nat).length = 32
    ∧ ((generatePkceCodes (fun n => List.replicate n 0)
          (fun _ => List.replicate 32 1)).challengeMethod = "S256"
      ∧ (generatePkceCodes (fun n => List.replicate n 0)
          (fun _ => List.replicate 32 1)).verifier.length = 43
      ∧ 43 ≤ (generatePkceCodes (fun n => List.replicate n 0)
          (fun _ => List.replicate 32 1)).verifier.length
      ∧ (generatePkceCodes (fun n => List.replicate n 0)
          (fun _ => List.replicate 32 1)).verifier.length ≤ 128
      ∧ (∀ c ∈ (generatePkceCodes (fun n => List.replicate n 0)
          (fun _ => List.replicate 32 1)).verifier.data, unreservedChar c = true)
      ∧ (generatePkceCodes (fun n => List.replicate n 0)
          (fun _ => List.replicate 32 1)).challenge
        = base64UrlEncode ((fun _ => List.replicate 32 1)
            (generatePkceCodes (fun n => List.replicate n 0)
              (fun _ => List.replicate 32 1)).verifier)) :=
  ⟨by simp,
    c8_pkce_generation (fun n => List.replicate n 0) (fun _ => List.replicate 32 1)
      (by simp)⟩

/-- A JavaScript array access result: the string at the index, or the
undefined value when the index is out of range. -/
inductive JsSegment where
  | str (s : String)
  | undef
  deriving DecidableEq

/-- Indexing jweAttributes[i] in JavaScript: out-of-range access yields
undefined rather than an error. -/
def segAt (parts : List String) (i : Nat) : JsSegment :=
  match parts.get? i with
  | some s => JsSegment.str s
  | none => JsSegment.undef

/-- JavaScript String.split with the one-character separator period:
scans the characters, closing the current piece at each period; the empty
string yields the singleton list holding the empty string, exactly as
rawJwe.split(".") does. -/
def jsSplitDotAux : List Char → List Char → List String
  | [], acc => [String.mk acc.reverse]
  | c :: rest, acc =>
    if c = '.' then String.mk acc.reverse :: jsSplitDotAux rest []
    else jsSplitDotAux rest (c :: acc)

/-- Split a string on the period character, JavaScript style. -/
def jsSplitDot (s : String) : List String :=
  jsSplitDotAux s.data []

/-- The five decoded fields the JsonWebEncryption constructor populates
(JsonWebEncryption.ts lines 22-33); the header field additionally goes
through JSON parsing in parseJweProtectedHeader, which receives the same
decoded string. -/
structure JweFields where
  headerInput : String
  encryptedKey : String
  initializationVector : String
  ciphertext : String
  authenticationTag : String
  deriving DecidableEq

/-- The JsonWebEncryption constructor (JsonWebEncryption.ts lines 22-33):
splits the raw input on the period character and hands segments 0 through
4, in fixed order, to the base64 decoder (an external collaborator, so it
enters as a parameter over JsSegment). There is no check that five
segments exist and no error branch of its own. -/
def mkJsonWebEncryption (decode : JsSegment → String) (rawJwe : String) : JweFields :=
  let jweAttributes := jsSplitDot rawJwe
  { headerInput := decode (segAt jweAttributes 0)
    encryptedKey := decode (segAt jweAttributes 1)
    initializationVector := decode (segAt jweAttributes 2)
    ciphertext := decode (segAt jweAttributes 3)
    authenticationTag := decode (segAt jweAttributes 4) }

/-- C10: for any input splitting into fewer than five period-separated
parts, the constructor still runs the decoder on segment 4, which is the
undefined value - the missing segment reaches the base64 decoder instead
of triggering a structured parse error. -/
theorem c10_jwe_missing_segment_reaches_decoder (decode : JsSegment → String)
    (rawJwe : String) (hshort : (jsSplitDot rawJwe).length < 5) :
    segAt (jsSplitDot rawJwe) 4 = JsSegment.undef
    ∧ (mkJsonWebEncryption decode rawJwe).authenticationTag = decode JsSegment.undef := by
  have hnone : (jsSplitDot rawJwe)[4]? = none := by
    rw [List.getElem?_eq_none_iff]
    omega
  constructor
  · simp [segAt, hnone]
  · simp [mkJsonWebEncryption, segAt, hnone]

/-- C10 witness: a two-part input, with a decoder that marks the
undefined value. -/
theorem c10_jwe_missing_segment_reaches_decoder_witness :
    ((jsSplitDot "a.b").length < 5)
    ∧ (segAt (jsSplitDot "a.b") 4 = JsSegment.undef
      ∧ (mkJsonWebEncryption
          (fun seg => match seg with
            | JsSegment.str s => s
            | JsSegment.undef => "decoded-undefined") "a.b").authenticationTag
        = (fun seg => match seg with
            | JsSegment.str s => s
            | JsSegment.undef => "decoded-undefined") JsSegment.undef) :=
  ⟨by decide,
    c10_jwe_missing_segment_reaches_decoder
      (fun seg => match seg with
        | JsSegment.str s => s
        | JsSegment.undef => "decoded-undefined") "a.b" (by decide)⟩
